import Mathlib

set_option maxRecDepth 2000000

/-!
Verification development for the CV-analyzer pipeline (src/cv_analyzer.py).

The Python source is shallowly embedded: pure helpers become Lean
functions, Python dictionaries parsed from JSON become a `Json` value
type, Python exceptions become an explicit `PyError` error type carried
in `Except`, and the external collaborators (PyPDF2, python-docx, the
UTF-8 decoder, `json.loads`, and the scoring-service client) are
modelled as an explicit `Extern` record of functions supplied by the
environment.  Machine-level hashing (`hashlib.md5`) is embedded as a
full MD5 implementation over byte lists.
-/

namespace CVAnalyzer

/-- Python exceptions that the embedded fragment of the source can raise. -/
inductive PyError where
  | keyError (key : String)
  | typeError
  | indexError
  | jsonDecodeError
  | apiError (msg : String)
deriving DecidableEq, Repr

/-- Values produced by parsing a JSON document, as `json.loads` returns
them (dictionaries keep insertion order, numbers are modelled as
rationals). -/
inductive Json where
  | null
  | bool (b : Bool)
  | num (q : ℚ)
  | str (s : String)
  | arr (elems : List Json)
  | obj (fields : List (String × Json))

/-- Python truthiness (`if x:`) for JSON-derived values: None, False,
zero, the empty string, the empty list and the empty dict are falsy. -/
def Json.truthy : Json → Bool
  | Json.null => false
  | Json.bool b => b
  | Json.num q => q != 0
  | Json.str s => s != ""
  | Json.arr elems => !elems.isEmpty
  | Json.obj fields => !fields.isEmpty

/-- Python subscripting `d[k]` on a JSON-derived value: a dictionary
lookup raising KeyError when the key is absent, and TypeError when the
value is not a dictionary (string subscripts on lists, numbers, and so
on). -/
def Json.getItem : Json → String → Except PyError Json
  | Json.obj fields, k =>
    match fields.find? (fun p => p.1 == k) with
    | some p => Except.ok p.2
    | none => Except.error (PyError.keyError k)
  | _, _ => Except.error PyError.typeError

/-- Replace the binding of key `k`, or append it, preserving insertion
order, as assignment into a Python dict does. -/
def setPair (k : String) (v : Json) : List (String × Json) → List (String × Json)
  | [] => [(k, v)]
  | p :: ps => if p.1 == k then (k, v) :: ps else p :: setPair k v ps

/-- Python item assignment `d[k] = v`: TypeError on anything that is not
a dictionary. -/
def Json.setItem : Json → String → Json → Except PyError Json
  | Json.obj fields, k, v => Except.ok (Json.obj (setPair k v fields))
  | _, _, _ => Except.error PyError.typeError

/-- Python comparison `x < c` between a JSON-derived value and a numeric
literal: numbers compare numerically, booleans compare as 0/1 (Python
bool is an int subtype), everything else raises TypeError. -/
def jlt : Json → ℚ → Except PyError Bool
  | Json.num q, c => Except.ok (decide (q < c))
  | Json.bool b, c => Except.ok (decide ((if b then (1 : ℚ) else 0) < c))
  | _, _ => Except.error PyError.typeError

/-! ### MD5 (`hashlib.md5(...).hexdigest()`)

A byte string is a `List Nat` with entries below 256.  The
implementation follows RFC 1321: pad, split into 64-byte chunks, run 64
rounds per chunk over a four-word state, output the final state as 32
lowercase hex characters in little-endian byte order. -/

/-- Rotate a 32-bit word left by `n` bits. -/
def rotl32 (x n : Nat) : Nat :=
  ((x <<< n) ||| (x >>> (32 - n))) % 4294967296

/-- The 64 MD5 sine-derived constants. -/
def md5K : List Nat :=
  [0xd76aa478, 0xe8c7b756, 0x242070db, 0xc1bdceee,
   0xf57c0faf, 0x4787c62a, 0xa8304613, 0xfd469501,
   0x698098d8, 0x8b44f7af, 0xffff5bb1, 0x895cd7be,
   0x6b901122, 0xfd987193, 0xa679438e, 0x49b40821,
   0xf61e2562, 0xc040b340, 0x265e5a51, 0xe9b6c7aa,
   0xd62f105d, 0x02441453, 0xd8a1e681, 0xe7d3fbc8,
   0x21e1cde6, 0xc33707d6, 0xf4d50d87, 0x455a14ed,
   0xa9e3e905, 0xfcefa3f8, 0x676f02d9, 0x8d2a4c8a,
   0xfffa3942, 0x8771f681, 0x6d9d6122, 0xfde5380c,
   0xa4beea44, 0x4bdecfa9, 0xf6bb4b60, 0xbebfbc70,
   0x289b7ec6, 0xeaa127fa, 0xd4ef3085, 0x04881d05,
   0xd9d4d039, 0xe6db99e5, 0x1fa27cf8, 0xc4ac5665,
   0xf4292244, 0x432aff97, 0xab9423a7, 0xfc93a039,
   0x655b59c3, 0x8f0ccc92, 0xffeff47d, 0x85845dd1,
   0x6fa87e4f, 0xfe2ce6e0, 0xa3014314, 0x4e0811a1,
   0xf7537e82, 0xbd3af235, 0x2ad7d2bb, 0xeb86d391]

/-- The 64 MD5 per-round left-rotation amounts. -/
def md5S : List Nat :=
  [7, 12, 17, 22, 7, 12, 17, 22, 7, 12, 17, 22, 7, 12, 17, 22,
   5, 9, 14, 20, 5, 9, 14, 20, 5, 9, 14, 20, 5, 9, 14, 20,
   4, 11, 16, 23, 4, 11, 16, 23, 4, 11, 16, 23, 4, 11, 16, 23,
   6, 10, 15, 21, 6, 10, 15, 21, 6, 10, 15, 21, 6, 10, 15, 21]

/-- MD5 padding: append the 0x80 marker, zero bytes up to 56 mod 64,
then the bit length of the original message as eight little-endian
bytes. -/
def md5pad (msg : List Nat) : List Nat :=
  let len := msg.length
  let zeros := (120 - (len + 1) % 64) % 64
  msg ++ [0x80] ++ List.replicate zeros 0 ++
    (List.range 8).map (fun i => ((len * 8) >>> (8 * i)) % 256)

/-- Split a byte list into chunks of 64 bytes (structural recursion on
a fuel bound so that the kernel can evaluate it; the fuel is always
sufficient because every step consumes at least one byte). -/
def toChunksAux : Nat → List Nat → List (List Nat)
  | 0, _ => []
  | _, [] => []
  | fuel + 1, l => l.take 64 :: toChunksAux fuel (l.drop 64)

/-- Split a byte list into chunks of 64 bytes. -/
def toChunks (l : List Nat) : List (List Nat) :=
  toChunksAux (l.length + 1) l

/-- Word `g` (0..15) of a 64-byte chunk, read little-endian. -/
def chunkWord (chunk : List Nat) (g : Nat) : Nat :=
  chunk.getD (4 * g) 0 + chunk.getD (4 * g + 1) 0 * 256 +
    chunk.getD (4 * g + 2) 0 * 65536 + chunk.getD (4 * g + 3) 0 * 16777216

/-- One of the 64 MD5 rounds, acting on the state (A, B, C, D). -/
def md5round (chunk : List Nat) (st : Nat × Nat × Nat × Nat) (i : Nat) :
    Nat × Nat × Nat × Nat :=
  let A := st.1
  let B := st.2.1
  let C := st.2.2.1
  let D := st.2.2.2
  let F :=
    if i < 16 then (B &&& C) ||| ((B ^^^ 0xffffffff) &&& D)
    else if i < 32 then (D &&& B) ||| ((D ^^^ 0xffffffff) &&& C)
    else if i < 48 then B ^^^ C ^^^ D
    else C ^^^ (B ||| (D ^^^ 0xffffffff))
  let g :=
    if i < 16 then i
    else if i < 32 then (5 * i + 1) % 16
    else if i < 48 then (3 * i + 5) % 16
    else (7 * i) % 16
  let F2 := (F + A + md5K.getD i 0 + chunkWord chunk g) % 4294967296
  (D, (B + rotl32 F2 (md5S.getD i 0)) % 4294967296, B, C)

/-- Process one 64-byte chunk: run the 64 rounds and add the result to
the incoming state, word-wise mod 2^32. -/
def md5chunk (st : Nat × Nat × Nat × Nat) (chunk : List Nat) :
    Nat × Nat × Nat × Nat :=
  let r := (List.range 64).foldl (md5round chunk) st
  ((st.1 + r.1) % 4294967296, (st.2.1 + r.2.1) % 4294967296,
   (st.2.2.1 + r.2.2.1) % 4294967296, (st.2.2.2 + r.2.2.2) % 4294967296)

/-- The four 32-bit state words of the MD5 digest of a byte list. -/
def md5words (msg : List Nat) : Nat × Nat × Nat × Nat :=
  (toChunks (md5pad msg)).foldl md5chunk
    (0x67452301, 0xefcdab89, 0x98badcfe, 0x10325476)

/-- Lowercase hex digit for a nibble. -/
def hexDigit (n : Nat) : Char :=
  if n < 10 then Char.ofNat (48 + n) else Char.ofNat (87 + n)

/-- Two hex characters for one byte, high nibble first. -/
def byteHex (b : Nat) : List Char :=
  [hexDigit (b / 16 % 16), hexDigit (b % 16)]

/-- Eight hex characters for one 32-bit word, bytes in little-endian
order as MD5 prescribes. -/
def wordLEHex (w : Nat) : List Char :=
  byteHex (w % 256) ++ byteHex (w / 256 % 256) ++
    byteHex (w / 65536 % 256) ++ byteHex (w / 16777216 % 256)

/-- The 32-character lowercase hex digest, as
`hashlib.md5(b).hexdigest()` returns it. -/
def md5hex (msg : List Nat) : String :=
  String.mk (wordLEHex (md5words msg).1 ++ wordLEHex (md5words msg).2.1 ++
    wordLEHex (md5words msg).2.2.1 ++ wordLEHex (md5words msg).2.2.2)

/-- Source lines 134-136: generate the content hash used to detect
duplicates. -/
def calculate_file_hash (file_content : List Nat) : String :=
  md5hex file_content

/-- Source lines 138-140: membership of the hash among the keys of the
processed-CVs store (`file_hash in st.session_state.processed_cvs`). -/
def check_duplicate (processed_cvs : List (String × Json)) (file_hash : String) : Bool :=
  processed_cvs.any (fun p => p.1 == file_hash)

/-! ### Files and external collaborators -/

/-- An uploaded file: `st.file_uploader` hands the batch loop named
byte streams, and the same name/bytes pair is what `BytesIO` plus the
attached `name` attribute gives `read_file_content`. -/
structure UploadedFile where
  name : String
  bytes : List Nat

/-- One content segment of a scoring-service response, carrying its
textual part (the anthropic content block with a `.text` attribute). -/
structure Segment where
  text : String

/-- The raw content of a scoring-service response: either a single
scalar string or a sequence of content segments, matching the
`isinstance(response_content, list)` test in the source. -/
inductive RespContent where
  | str (s : String)
  | list (segs : List Segment)

/-- The external collaborators of the pipeline, as opaque functions
supplied by the environment: the PDF page reader (the reader itself may
fail, and each per-page extract_text call may fail independently), the
DOCX paragraph reader, the UTF-8 byte decoder, the JSON parser
(`none` models a JSONDecodeError), and the scoring-service client
(its `Except.error` models any exception from the API call). -/
structure Extern where
  pdfPages : List Nat → Except PyError (List (Except PyError String))
  docxParagraphs : List Nat → Except PyError (List String)
  decodeUtf8 : List Nat → Except PyError String
  jloads : String → Option Json
  client : String → Except PyError RespContent

/-! ### read_file_content (source lines 13-31) -/

/-- Python `s.endswith(suffix)`: the suffix test on the character
sequence. -/
def endswith (s suffix : String) : Bool :=
  suffix.data.isSuffixOf s.data

/-- The accumulation loop `for page in pdf_reader.pages: text +=
page.extract_text()`: returns the text built up so far together with
the first error raised, if any. -/
def pdfAccum : List (Except PyError String) → String → String × Option PyError
  | [], acc => (acc, none)
  | Except.ok t :: rest, acc => pdfAccum rest (acc ++ t)
  | Except.error e :: _, acc => (acc, some e)

/-- The body of the `try:` block of read_file_content: the text
final value of the text variable and the exception that escaped the block, if
any. PDF accumulates page by page; DOCX joins paragraph texts with
single spaces in one assignment; everything else is decoded as UTF-8.
-/
def read_file_body (ext : Extern) (file_obj : UploadedFile) :
    String × Option PyError :=
  let file_name := file_obj.name
  if endswith file_name ".pdf" then
    match ext.pdfPages file_obj.bytes with
    | Except.error e => ("", some e)
    | Except.ok pages => pdfAccum pages ""
  else if endswith file_name ".docx" then
    match ext.docxParagraphs file_obj.bytes with
    | Except.error e => ("", some e)
    | Except.ok paras => (" ".intercalate paras, none)
  else
    match ext.decodeUtf8 file_obj.bytes with
    | Except.error e => ("", some e)
    | Except.ok s => (s, none)

/-- Source lines 13-31: extract text from an uploaded file.  The
`except Exception` handler only displays the error, so the function
returns whatever the text variable holds when the block ends, normally
or not. -/
def read_file_content (ext : Extern) (file_obj : UploadedFile) : String :=
  (read_file_body ext file_obj).1

/-! ### analyze_cv (source lines 33-117) -/

/-- Source lines 35-91: the f-string prompt sent to the scoring
service, with the rubric, the output schema and the CV text embedded.
-/
def analysis_prompt (cv_text : String) : String :=
  "\n    Analyze this CV for a finance role. Extract the email address if present and analyze based on these criteria:\n"
  ++ "\n    Skills (45% of total score):\n    - Finance and economics knowledge\n    - Excel proficiency\n    - Analytical capabilities\n"
  ++ "\n    Experience (15% of total score):\n    - Autonomy and leadership\n    - Relevant industry experience\n    \n"
  ++ "    Cultural Fit (25% of total score):\n    - Learning mindset\n    - Impact-orientation\n    - Collaboration/team fit\n    \n"
  ++ "    Location (15% of total score):\n    - UK location preferred\n"
  ++ "\n    Return ONLY a JSON string (no other text) in this exact format:\n"
  ++ "    \x7b\n        \"email\": \"string\",\n        \"location\": \x7b\"is_uk\": boolean, \"location_details\": \"string\"\x7d,\n"
  ++ "        \"skills\": \x7b\n            \"finance_economics\": number (0-10),\n            \"analytical\": number (0-10),\n            \"excel\": number (0-10),\n            \"python_sql\": number (0-10),\n            \"identified_skills\": [\"skill1\", \"skill2\"]\n        \x7d,\n"
  ++ "        \"experience\": \x7b\n            \"years_relevant\": number,\n            \"autonomy\": number (0-10),\n            \"industry_relevance\": number (0-10),\n            \"key_achievements\": [\"achievement1\", \"achievement2\"]\n        \x7d,\n"
  ++ "        \"cultural_fit\": \x7b\n            \"learning_orientation\": number (0-10),\n            \"impact_driven\": number (0-10),\n            \"team_orientation\": number (0-10),\n            \"supporting_evidence\": [\"evidence1\", \"evidence2\"]\n        \x7d,\n"
  ++ "        \"overall_score\": number (0-10),\n        \"key_strengths\": [\"strength1\", \"strength2\"],\n        \"potential_concerns\": [\"concern1\", \"concern2\"]\n    \x7d\n"
  ++ "\n    Base the overall_score (0-10) on these weightings:\n    - Skills: 45% (finance_economics, excel, analytical)\n    - Experience: 15% (autonomy, industry_relevance)\n    - Cultural Fit: 25% (learning_orientation, impact_driven, team_orientation)\n    - Location: 15% (10 for UK, 5 for non-UK)\n"
  ++ "\n    CV Text:\n    " ++ cv_text ++ "\n    "

/-- Source lines 102-104: take the response content and, when it is a
list, replace it with the `.text` of its element 0 (an empty list makes
the subscript raise IndexError). -/
def extract_response_text : RespContent → Except PyError String
  | RespContent.str s => Except.ok s
  | RespContent.list [] => Except.error PyError.indexError
  | RespContent.list (seg :: _) => Except.ok seg.text

/-- Source lines 33-117: call the scoring service and parse its
response.  A client exception or the IndexError from an empty content
list is caught by the outer handler and yields None; a JSON parse
failure is caught by the inner handler and yields None. -/
def analyze_cv (ext : Extern) (cv_text : String) : Option Json :=
  match ext.client (analysis_prompt cv_text) with
  | Except.error _ => none
  | Except.ok content =>
    match extract_response_text content with
    | Except.error _ => none
    | Except.ok s => ext.jloads s

/-! ### Derived metrics (source lines 142-173) -/

/-- Source lines 142-151: skills gaps against the three fixed
thresholds. -/
def analyze_skills_gap (skills_dict : Json) : Except PyError (List String) := do
  let gaps : List String := []
  let v0 ← skills_dict.getItem "finance_economics"
  let b0 ← jlt v0 7
  let gaps := if b0 then gaps ++ ["Finance/Economics knowledge below threshold"] else gaps
  let v1 ← skills_dict.getItem "excel"
  let b1 ← jlt v1 6
  let gaps := if b1 then gaps ++ ["Excel proficiency needs improvement"] else gaps
  let v2 ← skills_dict.getItem "analytical"
  let b2 ← jlt v2 7
  let gaps := if b2 then gaps ++ ["Analytical skills need strengthening"] else gaps
  Except.ok gaps

/-- Source lines 153-173: red flags for limited experience, Excel,
team orientation, and non-UK location (the last via Python truthiness
of `not ...`). -/
def detect_red_flags (cv_analysis : Json) : Except PyError (List String) := do
  let red_flags : List String := []
  let exp0 ← cv_analysis.getItem "experience"
  let yrs ← exp0.getItem "years_relevant"
  let b0 ← jlt yrs 2
  let red_flags := if b0 then red_flags ++ ["Limited relevant experience"] else red_flags
  let sk ← cv_analysis.getItem "skills"
  let ex ← sk.getItem "excel"
  let b1 ← jlt ex 5
  let red_flags := if b1 then red_flags ++ ["Insufficient Excel proficiency"] else red_flags
  let cf ← cv_analysis.getItem "cultural_fit"
  let t ← cf.getItem "team_orientation"
  let b2 ← jlt t 5
  let red_flags := if b2 then red_flags ++ ["Potential team fit concerns"] else red_flags
  let loc ← cv_analysis.getItem "location"
  let uk ← loc.getItem "is_uk"
  let red_flags := if !uk.truthy then red_flags ++ ["Non-UK location - visa may be required"] else red_flags
  Except.ok red_flags

/-! ### The batch loop of main (source lines 379-408) -/

/-- Source lines 399-402: the enrichment of a truthy analysis inside
the batch loop — attach skills_gaps, red_flags and filename by dict
assignment.  Any KeyError or TypeError raised here escapes main. -/
def enrich_analysis (analysis : Json) (filename : String) : Except PyError Json := do
  let skills ← analysis.getItem "skills"
  let gaps ← analyze_skills_gap skills
  let a1 ← analysis.setItem "skills_gaps" (Json.arr (gaps.map Json.str))
  let flags ← detect_red_flags a1
  let a2 ← a1.setItem "red_flags" (Json.arr (flags.map Json.str))
  a2.setItem "filename" (Json.str filename)

/-- Source lines 383-408: the per-file batch loop.  State: the
processed-CVs store (hash-keyed, insertion ordered) and the results
list.  A duplicate hash skips the file; a falsy analysis (None or a
falsy parsed value) is dropped without recording; a successful
enrichment appends to both results and the store; an exception during
enrichment escapes, aborting the whole run. -/
def processBatch (ext : Extern) (files : List UploadedFile)
    (processed_cvs : List (String × Json)) (results : List Json) :
    Except PyError (List Json × List (String × Json)) :=
  match files with
  | [] => Except.ok (results, processed_cvs)
  | file :: rest =>
    let file_hash := calculate_file_hash file.bytes
    if check_duplicate processed_cvs file_hash then
      processBatch ext rest processed_cvs results
    else
      let cv_text := read_file_content ext file
      match analyze_cv ext cv_text with
      | none => processBatch ext rest processed_cvs results
      | some analysis =>
        if analysis.truthy then
          match enrich_analysis analysis file.name with
          | Except.error e => Except.error e
          | Except.ok a =>
            processBatch ext rest (processed_cvs ++ [(file_hash, a)])
              (results ++ [a])
        else
          processBatch ext rest processed_cvs results

/-- A concrete UTF-8 decoder for the ASCII plane, used to instantiate
the `decodeUtf8` collaborator on concrete inputs: bytes below 128
decode to themselves, anything else raises (as a lone non-ASCII byte
does under strict UTF-8 decoding). -/
def asciiDecode (bytes : List Nat) : Except PyError String :=
  if bytes.all (fun b => b < 128) then
    Except.ok (String.mk (bytes.map Char.ofNat))
  else
    Except.error (PyError.apiError "UnicodeDecodeError")

/-- The concatenation of the prefix of successfully extracted page
texts, up to (excluding) the first page whose extraction raises: the
value the text accumulator holds when the PDF loop stops. -/
def okConcat : List (Except PyError String) → String
  | [] => ""
  | Except.ok t :: rest => t ++ okConcat rest
  | Except.error _ :: _ => ""

/-! ### Concrete environment instantiations used to exercise the
pipeline on closed inputs. -/

/-- An environment whose scoring-service client always raises (for
example, offline), with a real ASCII text decoder. -/
def extOffline : Extern := {
  pdfPages := fun _ => Except.error PyError.typeError,
  docxParagraphs := fun _ => Except.error PyError.typeError,
  decodeUtf8 := asciiDecode,
  jloads := fun _ => none,
  client := fun _ => Except.error (PyError.apiError "offline") }

/-- An environment whose PDF reader yields three pages of which the
second raises during text extraction. -/
def extPdfPartial : Extern := {
  pdfPages := fun _ =>
    Except.ok [Except.ok "One", Except.error PyError.typeError, Except.ok "Three"],
  docxParagraphs := fun _ => Except.error PyError.typeError,
  decodeUtf8 := asciiDecode,
  jloads := fun _ => none,
  client := fun _ => Except.error (PyError.apiError "offline") }

/-- An environment whose scoring service answers with a two-segment
content list and whose JSON parser wraps its input verbatim. -/
def extSegs : Extern := {
  pdfPages := fun _ => Except.error PyError.typeError,
  docxParagraphs := fun _ => Except.error PyError.typeError,
  decodeUtf8 := asciiDecode,
  jloads := fun s => some (Json.str s),
  client := fun _ => Except.ok (RespContent.list [⟨"s1"⟩, ⟨"s2"⟩]) }

/-- A scoring response that parses as a dictionary but lacks the
required skills field. -/
def respMissingSkills : Json := Json.obj [("email", Json.str "a@b.c")]

/-- An environment whose scoring service always answers with the
response that is missing the skills field. -/
def extMissingSkills : Extern := {
  pdfPages := fun _ => Except.error PyError.typeError,
  docxParagraphs := fun _ => Except.error PyError.typeError,
  decodeUtf8 := asciiDecode,
  jloads := fun _ => some respMissingSkills,
  client := fun _ => Except.ok (RespContent.str "resp") }

/-- A well-formed scoring response whose numeric values are all inside
their declared ranges and above every gap and red-flag threshold. -/
def respInRange : Json :=
  Json.obj [("skills", Json.obj [("finance_economics", Json.num 8),
              ("excel", Json.num 9), ("analytical", Json.num 7)]),
            ("experience", Json.obj [("years_relevant", Json.num 3)]),
            ("cultural_fit", Json.obj [("team_orientation", Json.num 8)]),
            ("location", Json.obj [("is_uk", Json.bool true)])]

/-- An environment whose scoring service always answers with the
in-range response. -/
def extInRange : Extern := { extMissingSkills with jloads := fun _ => some respInRange }

/-- The record the batch loop builds from `respInRange` for a file
named cv1.txt: the response with empty skills_gaps and red_flags lists
and the filename attached. -/
def enrInRange : Json :=
  Json.obj [("skills", Json.obj [("finance_economics", Json.num 8),
              ("excel", Json.num 9), ("analytical", Json.num 7)]),
            ("experience", Json.obj [("years_relevant", Json.num 3)]),
            ("cultural_fit", Json.obj [("team_orientation", Json.num 8)]),
            ("location", Json.obj [("is_uk", Json.bool true)]),
            ("skills_gaps", Json.arr []),
            ("red_flags", Json.arr []),
            ("filename", Json.str "cv1.txt")]

/-- A skills dictionary whose excel entry is the parameter `q`
(letting the excel score range over every rational, in range or not).
-/
def skillsWithExcel (q : ℚ) : Json :=
  Json.obj [("finance_economics", Json.num 8), ("analytical", Json.num 8),
            ("excel", Json.num q)]

/-- A complete, well-shaped scoring response whose excel score is the
parameter `q`. -/
def respWithExcel (q : ℚ) : Json :=
  Json.obj [("email", Json.str "x@y.z"),
            ("location", Json.obj [("is_uk", Json.bool true),
              ("location_details", Json.str "London")]),
            ("skills", skillsWithExcel q),
            ("experience", Json.obj [("years_relevant", Json.num 3),
              ("autonomy", Json.num 7), ("industry_relevance", Json.num 7),
              ("key_achievements", Json.arr [])]),
            ("cultural_fit", Json.obj [("learning_orientation", Json.num 8),
              ("impact_driven", Json.num 8), ("team_orientation", Json.num 8),
              ("supporting_evidence", Json.arr [])]),
            ("overall_score", Json.num 8),
            ("key_strengths", Json.arr []),
            ("potential_concerns", Json.arr [])]

/-- An environment whose scoring service always answers with
`respWithExcel q`. -/
def extWithExcel (q : ℚ) : Extern :=
  { extMissingSkills with jloads := fun _ => some (respWithExcel q) }

/-- A concrete skills dictionary: finance 8, excel 5, analytical 7. -/
def skillsSample : Json :=
  Json.obj [("finance_economics", Json.num 8), ("excel", Json.num 5),
            ("analytical", Json.num 7)]

/-- A concrete validated assessment: one year of experience, excel 6,
team orientation 4, outside the UK. -/
def cvSample : Json :=
  Json.obj [("experience", Json.obj [("years_relevant", Json.num 1)]),
            ("skills", Json.obj [("excel", Json.num 6)]),
            ("cultural_fit", Json.obj [("team_orientation", Json.num 4)]),
            ("location", Json.obj [("is_uk", Json.bool false)])]

/-! ## Helper lemmas -/

/-- Bind on a successful Except value reduces to the continuation. -/
lemma bind_ok_e {α β : Type} (a : α) (f : α → Except PyError β) :
    (Except.ok a >>= f) = f a := rfl

/-- A negative duplicate check means the hash is not among the store
keys. -/
lemma check_duplicate_false {store : List (String × Json)} {h : String}
    (hc : check_duplicate store h = false) : h ∉ store.map Prod.fst := by
  intro hmem
  rw [List.mem_map] at hmem
  obtain ⟨p, hp, hph⟩ := hmem
  have ht : check_duplicate store h = true := by
    rw [check_duplicate, List.any_eq_true]
    exact ⟨p, hp, by simp [hph]⟩
  rw [hc] at ht
  cases ht

/-- Each 32-bit word contributes exactly eight hex characters. -/
lemma wordLEHex_length (w : Nat) : (wordLEHex w).length = 8 := by
  simp [wordLEHex, byteHex]

/-- The hex digest always has exactly 32 characters, i.e. 128 bits. -/
lemma md5hex_length (msg : List Nat) : (md5hex msg).length = 32 := by
  simp [md5hex, String.length, wordLEHex_length]

/-- The PDF page loop returns the accumulator extended with the texts
of the pages before the first failing one. -/
lemma pdfAccum_fst : ∀ (pages : List (Except PyError String)) (acc : String),
    (pdfAccum pages acc).1 = acc ++ okConcat pages := by
  intro pages
  induction pages with
  | nil => intro acc; simp [pdfAccum, okConcat, String.append_empty]
  | cons p rest ih =>
    intro acc
    cases p with
    | ok t => simp [pdfAccum, okConcat, ih, String.append_assoc]
    | error e => simp [pdfAccum, okConcat, String.append_empty]

/-! ## Claims -/

/-- C1: a scoring response that parses but is missing the required
skills field does not fail with a SchemaViolation naming the field —
the batch loop raises an uncaught KeyError at the skills-gap step and
the whole run aborts, returning no results even for documents that
would have processed successfully on their own. -/
theorem C1_missing_skills_aborts_batch :
    processBatch extMissingSkills [⟨"cv1.txt", [104]⟩, ⟨"cv2.txt", [105]⟩] [] [] =
      Except.error (PyError.keyError "skills") ∧
    (∃ out, processBatch extInRange [⟨"cv2.txt", [105]⟩] [] [] = Except.ok out ∧
      out.1.length = 1) :=
  ⟨rfl, ⟨_, rfl, rfl⟩⟩

/-- C2 counterexample: a response whose excel score is 15, outside the
declared [0,10] range, is not rejected — the batch accepts it and
produces an assessment whose stored excel value is still 15. -/
theorem C2_counterexample :
    ∃ a store sk,
      processBatch (extWithExcel 15) [⟨"cv.txt", [104]⟩] [] [] =
        Except.ok ([a], store) ∧
      a.getItem "skills" = Except.ok sk ∧
      sk.getItem "excel" = Except.ok (Json.num 15) :=
  ⟨_, _, _, rfl, rfl, rfl⟩

/-- C2 amended: no numeric range validation exists — for every
rational excel score q, in range or not, enrichment succeeds and the
assessment stores exactly the parsed value (never clamped, never
rejected). -/
theorem C2_no_range_validation (q : ℚ) :
    ∃ a, enrich_analysis (respWithExcel q) "cv.txt" = Except.ok a ∧
      a.getItem "skills" = Except.ok (skillsWithExcel q) ∧
      (skillsWithExcel q).getItem "excel" = Except.ok (Json.num q) :=
  ⟨_, rfl, rfl, rfl⟩

/-- C2 witness: the amended statement at the out-of-range score 15. -/
theorem C2_no_range_validation_witness :
    ∃ a, enrich_analysis (respWithExcel 15) "cv.txt" = Except.ok a ∧
      a.getItem "skills" = Except.ok (skillsWithExcel 15) ∧
      (skillsWithExcel 15).getItem "excel" = Except.ok (Json.num 15) :=
  C2_no_range_validation 15

/-- C3 counterexample: a file whose name ends in neither .pdf nor
.docx — here a .exe name, a kind the pipeline does not support — does
not fail: extraction decodes its bytes as text and raises nothing. -/
theorem C3_counterexample_unknown_kind_yields_text :
    read_file_content extOffline ⟨"cv.exe", [104, 101, 108, 108, 111]⟩ = "hello" ∧
    (read_file_body extOffline ⟨"cv.exe", [104, 101, 108, 108, 111]⟩).2 = none :=
  ⟨rfl, rfl⟩

/-- C3 amended: any input whose name ends in neither .pdf nor .docx is
treated as plain text — its bytes are decoded as UTF-8 (yielding the
empty string if decoding raises); no UnsupportedFormat failure exists.
-/
theorem C3_unknown_kind_treated_as_plain_text (ext : Extern) (file_obj : UploadedFile)
    (h1 : endswith file_obj.name ".pdf" = false)
    (h2 : endswith file_obj.name ".docx" = false) :
    read_file_content ext file_obj =
      (match ext.decodeUtf8 file_obj.bytes with
       | Except.ok s => s
       | Except.error _ => "") := by
  rcases hd : ext.decodeUtf8 file_obj.bytes with e | s <;>
    simp [read_file_content, read_file_body, h1, h2, hd]

/-- C3 witness: the amended statement at a concrete .md file. -/
theorem C3_unknown_kind_witness :
    read_file_content extOffline ⟨"notes.md", [104, 105]⟩ = "hi" :=
  (C3_unknown_kind_treated_as_plain_text extOffline ⟨"notes.md", [104, 105]⟩
    rfl rfl).trans rfl

/-- C4: the skills-gap computation flags finance_economics below 7,
excel below 6 and analytical below 7, each exactly at its threshold,
and produces no other gap. -/
theorem C4_skills_gap_thresholds (skills_dict : Json) (f e a : ℚ)
    (hf : skills_dict.getItem "finance_economics" = Except.ok (Json.num f))
    (he : skills_dict.getItem "excel" = Except.ok (Json.num e))
    (ha : skills_dict.getItem "analytical" = Except.ok (Json.num a)) :
    ∃ gaps, analyze_skills_gap skills_dict = Except.ok gaps ∧
      (("Finance/Economics knowledge below threshold" ∈ gaps) ↔ f < 7) ∧
      (("Excel proficiency needs improvement" ∈ gaps) ↔ e < 6) ∧
      (("Analytical skills need strengthening" ∈ gaps) ↔ a < 7) ∧
      (∀ g ∈ gaps,
        g = "Finance/Economics knowledge below threshold" ∨
        g = "Excel proficiency needs improvement" ∨
        g = "Analytical skills need strengthening") := by
  unfold analyze_skills_gap
  rw [hf, bind_ok_e]
  rw [show jlt (Json.num f) 7 = Except.ok (decide (f < 7)) from rfl, bind_ok_e]
  rw [he, bind_ok_e]
  rw [show jlt (Json.num e) 6 = Except.ok (decide (e < 6)) from rfl, bind_ok_e]
  rw [ha, bind_ok_e]
  rw [show jlt (Json.num a) 7 = Except.ok (decide (a < 7)) from rfl, bind_ok_e]
  refine ⟨_, rfl, ?_, ?_, ?_, ?_⟩ <;>
    rcases lt_or_le f 7 with h1 | h1 <;>
    rcases lt_or_le e 6 with h2 | h2 <;>
    rcases lt_or_le a 7 with h3 | h3 <;>
    simp [h1, h2, h3, not_lt_of_le]

/-- C4 witness: the gap characterisation at finance 8, excel 5,
analytical 7 (exactly one gap, for excel). -/
theorem C4_skills_gap_thresholds_witness :
    ∃ gaps, analyze_skills_gap skillsSample = Except.ok gaps ∧
      (("Finance/Economics knowledge below threshold" ∈ gaps) ↔ (8 : ℚ) < 7) ∧
      (("Excel proficiency needs improvement" ∈ gaps) ↔ (5 : ℚ) < 6) ∧
      (("Analytical skills need strengthening" ∈ gaps) ↔ (7 : ℚ) < 7) ∧
      (∀ g ∈ gaps,
        g = "Finance/Economics knowledge below threshold" ∨
        g = "Excel proficiency needs improvement" ∨
        g = "Analytical skills need strengthening") :=
  C4_skills_gap_thresholds skillsSample 8 5 7 rfl rfl rfl

/-- C5: the red-flag computation flags years_relevant below 2, excel
below 5, team_orientation below 5 and a non-UK location, each exactly
at its threshold, and produces no other flag. -/
theorem C5_red_flag_thresholds (cv expd skd cfd locd : Json) (y e t : ℚ) (u : Bool)
    (h1 : cv.getItem "experience" = Except.ok expd)
    (h2 : expd.getItem "years_relevant" = Except.ok (Json.num y))
    (h3 : cv.getItem "skills" = Except.ok skd)
    (h4 : skd.getItem "excel" = Except.ok (Json.num e))
    (h5 : cv.getItem "cultural_fit" = Except.ok cfd)
    (h6 : cfd.getItem "team_orientation" = Except.ok (Json.num t))
    (h7 : cv.getItem "location" = Except.ok locd)
    (h8 : locd.getItem "is_uk" = Except.ok (Json.bool u)) :
    ∃ flags, detect_red_flags cv = Except.ok flags ∧
      (("Limited relevant experience" ∈ flags) ↔ y < 2) ∧
      (("Insufficient Excel proficiency" ∈ flags) ↔ e < 5) ∧
      (("Potential team fit concerns" ∈ flags) ↔ t < 5) ∧
      (("Non-UK location - visa may be required" ∈ flags) ↔ u = false) ∧
      (∀ s ∈ flags,
        s = "Limited relevant experience" ∨
        s = "Insufficient Excel proficiency" ∨
        s = "Potential team fit concerns" ∨
        s = "Non-UK location - visa may be required") := by
  unfold detect_red_flags
  rw [h1, bind_ok_e, h2, bind_ok_e]
  rw [show jlt (Json.num y) 2 = Except.ok (decide (y < 2)) from rfl, bind_ok_e]
  rw [h3, bind_ok_e, h4, bind_ok_e]
  rw [show jlt (Json.num e) 5 = Except.ok (decide (e < 5)) from rfl, bind_ok_e]
  rw [h5, bind_ok_e, h6, bind_ok_e]
  rw [show jlt (Json.num t) 5 = Except.ok (decide (t < 5)) from rfl, bind_ok_e]
  rw [h7, bind_ok_e, h8, bind_ok_e]
  refine ⟨_, rfl, ?_, ?_, ?_, ?_, ?_⟩ <;>
    rcases lt_or_le y 2 with hy | hy <;>
    rcases lt_or_le e 5 with he | he <;>
    rcases lt_or_le t 5 with ht | ht <;>
    cases u <;>
    simp [hy, he, ht, not_lt_of_le, Json.truthy]

/-- C5 witness: the flag characterisation at one year of experience,
excel 6, team orientation 4, non-UK location (three flags raised, the
excel one not). -/
theorem C5_red_flag_thresholds_witness :
    ∃ flags, detect_red_flags cvSample = Except.ok flags ∧
      (("Limited relevant experience" ∈ flags) ↔ (1 : ℚ) < 2) ∧
      (("Insufficient Excel proficiency" ∈ flags) ↔ (6 : ℚ) < 5) ∧
      (("Potential team fit concerns" ∈ flags) ↔ (4 : ℚ) < 5) ∧
      (("Non-UK location - visa may be required" ∈ flags) ↔ false = false) ∧
      (∀ s ∈ flags,
        s = "Limited relevant experience" ∨
        s = "Insufficient Excel proficiency" ∨
        s = "Potential team fit concerns" ∨
        s = "Non-UK location - visa may be required") :=
  C5_red_flag_thresholds cvSample
    (Json.obj [("years_relevant", Json.num 1)])
    (Json.obj [("excel", Json.num 6)])
    (Json.obj [("team_orientation", Json.num 4)])
    (Json.obj [("is_uk", Json.bool false)])
    1 6 4 false rfl rfl rfl rfl rfl rfl rfl rfl

/-- C6: the content fingerprint is computed from the bytes alone — two
documents with identical bytes get identical digests whatever their
names — and the digest is a 128-bit value (32 hex characters). -/
theorem C6_fingerprint_content_only (d1 d2 : UploadedFile)
    (h : d1.bytes = d2.bytes) :
    calculate_file_hash d1.bytes = calculate_file_hash d2.bytes ∧
    (calculate_file_hash d1.bytes).length = 32 :=
  ⟨by rw [h], md5hex_length d1.bytes⟩

/-- C6 witness: two files with the same two bytes and different names.
-/
theorem C6_fingerprint_content_only_witness :
    calculate_file_hash [104, 105] = calculate_file_hash [104, 105] ∧
    (calculate_file_hash [104, 105]).length = 32 :=
  C6_fingerprint_content_only ⟨"cv_a.txt", [104, 105]⟩ ⟨"cv_b.txt", [104, 105]⟩ rfl

/-- C7: within one batch at most one assessment is produced per
fingerprint — when the batch completes, the store keys stay free of
duplicates and every produced result corresponds to exactly one newly
recorded fingerprint; recorded fingerprints are never removed; and a
file whose fingerprint is already recorded is skipped outright. -/
theorem C7_at_most_one_assessment_per_fingerprint (ext : Extern)
    (files : List UploadedFile) :
    (∀ store results out,
      (store.map Prod.fst).Nodup →
      processBatch ext files store results = Except.ok out →
      (out.2.map Prod.fst).Nodup ∧
      out.1.length + store.length = results.length + out.2.length) ∧
    (∀ store results out,
      processBatch ext files store results = Except.ok out →
      ∃ extra, out.2 = store ++ extra) ∧
    (∀ f rest store results, files = f :: rest →
      check_duplicate store (calculate_file_hash f.bytes) = true →
      processBatch ext files store results = processBatch ext rest store results) := by
  refine ⟨?_, ?_, ?_⟩
  · induction files with
    | nil =>
      intro store results out hnd h
      simp only [processBatch, Except.ok.injEq] at h
      subst h
      exact ⟨hnd, rfl⟩
    | cons file rest ih =>
      intro store results out hnd h
      simp only [processBatch] at h
      by_cases hdup : check_duplicate store (calculate_file_hash file.bytes) = true
      · rw [if_pos hdup] at h
        exact ih store results out hnd h
      · rw [if_neg hdup] at h
        rcases hca : analyze_cv ext (read_file_content ext file) with _ | analysis
        · rw [hca] at h
          exact ih store results out hnd h
        · rw [hca] at h
          simp only at h
          by_cases htr : analysis.truthy = true
          · rw [if_pos htr] at h
            rcases henr : enrich_analysis analysis file.name with e | a
            · rw [henr] at h
              simp at h
            · rw [henr] at h
              simp only at h
              have hfalse : check_duplicate store (calculate_file_hash file.bytes) = false := by
                simpa using hdup
              have hni := check_duplicate_false hfalse
              have hnd2 : ((store ++ [(calculate_file_hash file.bytes, a)]).map Prod.fst).Nodup := by
                rw [List.map_append, List.nodup_append]
                refine ⟨hnd, by simp, ?_⟩
                intro x hx hx2
                simp at hx2
                subst hx2
                exact hni hx
              have ih2 := ih _ _ out hnd2 h
              refine ⟨ih2.1, ?_⟩
              have hl := ih2.2
              simp only [List.length_append, List.length_singleton] at hl
              omega
          · rw [if_neg htr] at h
            exact ih store results out hnd h
  · induction files with
    | nil =>
      intro store results out h
      simp only [processBatch, Except.ok.injEq] at h
      subst h
      exact ⟨[], by simp⟩
    | cons file rest ih =>
      intro store results out h
      simp only [processBatch] at h
      by_cases hdup : check_duplicate store (calculate_file_hash file.bytes) = true
      · rw [if_pos hdup] at h
        exact ih store results out h
      · rw [if_neg hdup] at h
        rcases hca : analyze_cv ext (read_file_content ext file) with _ | analysis
        · rw [hca] at h
          exact ih store results out h
        · rw [hca] at h
          simp only at h
          by_cases htr : analysis.truthy = true
          · rw [if_pos htr] at h
            rcases henr : enrich_analysis analysis file.name with e | a
            · rw [henr] at h
              simp at h
            · rw [henr] at h
              simp only at h
              obtain ⟨extra, hx⟩ := ih _ _ out h
              refine ⟨(calculate_file_hash file.bytes, a) :: extra, ?_⟩
              rw [hx, List.append_assoc]
              rfl
          · rw [if_neg htr] at h
            exact ih store results out h
  · intro f rest store results hfiles hdup
    subst hfiles
    simp only [processBatch, hdup, if_true]

/-- C7 witness: a two-file batch with identical bytes under different
names — one result, one fresh store key, the key set duplicate-free,
recording preserved, and the head of a batch with an already-recorded
fingerprint skipped. -/
theorem C7_at_most_one_assessment_per_fingerprint_witness :
    (([("2510c39011c5be704182423e3a695e91", enrInRange)].map Prod.fst).Nodup ∧
      [enrInRange].length + List.length ([] : List (String × Json)) =
        List.length ([] : List Json) +
          [("2510c39011c5be704182423e3a695e91", enrInRange)].length) ∧
    (∃ extra, [("2510c39011c5be704182423e3a695e91", enrInRange)] =
        ([] : List (String × Json)) ++ extra) ∧
    processBatch extInRange [⟨"cv2.txt", [104]⟩]
        [("2510c39011c5be704182423e3a695e91", enrInRange)] [enrInRange] =
      processBatch extInRange []
        [("2510c39011c5be704182423e3a695e91", enrInRange)] [enrInRange] := by
  have h2 := C7_at_most_one_assessment_per_fingerprint extInRange
    [⟨"cv1.txt", [104]⟩, ⟨"cv2.txt", [104]⟩]
  have h1 := C7_at_most_one_assessment_per_fingerprint extInRange
    [⟨"cv2.txt", [104]⟩]
  exact ⟨h2.1 [] [] ([enrInRange], [("2510c39011c5be704182423e3a695e91", enrInRange)])
          (by simp) (by rfl),
         h2.2.1 [] [] ([enrInRange], [("2510c39011c5be704182423e3a695e91", enrInRange)])
          (by rfl),
         h1.2.2 ⟨"cv2.txt", [104]⟩ [] _ _ rfl (by rfl)⟩

/-- C8 counterexample: a two-segment response is not concatenated —
the extraction step keeps only the text of segment 0, which differs
from the in-order concatenation of all segment texts. -/
theorem C8_counterexample_second_segment_dropped :
    extract_response_text (RespContent.list [⟨"ab"⟩, ⟨"cd"⟩]) = Except.ok "ab" ∧
    extract_response_text (RespContent.list [⟨"ab"⟩, ⟨"cd"⟩]) ≠
      Except.ok (String.join ([Segment.mk "ab", Segment.mk "cd"].map Segment.text)) := by
  refine ⟨rfl, ?_⟩
  intro h
  simp [extract_response_text, String.join] at h

/-- C8 amended: when the response is a segment list, only the first
segment is used — the parsed payload is exactly the JSON parse of the
text of segment 0, whatever the remaining segments hold. -/
theorem C8_first_segment_only (ext : Extern) (cv_text : String)
    (seg : Segment) (rest : List Segment)
    (h : ext.client (analysis_prompt cv_text) =
      Except.ok (RespContent.list (seg :: rest))) :
    analyze_cv ext cv_text = ext.jloads seg.text := by
  unfold analyze_cv
  rw [h]
  rfl

/-- C8 witness: the amended statement for a concrete two-segment
response. -/
theorem C8_first_segment_only_witness :
    analyze_cv extSegs "cv" = some (Json.str "s1") :=
  (C8_first_segment_only extSegs "cv" ⟨"s1"⟩ [⟨"s2"⟩] rfl).trans rfl

/-- C9: text extraction never propagates an error — in every branch,
including a failing PDF reader, a page whose extraction raises midway,
a failing DOCX reader and a failing decode, the function returns the
text accumulated so far (possibly empty). -/
theorem C9_extraction_never_raises (ext : Extern) (file_obj : UploadedFile) :
    ((endswith file_obj.name ".pdf" = true) →
      (∀ e, ext.pdfPages file_obj.bytes = Except.error e →
        read_file_content ext file_obj = "") ∧
      (∀ pages, ext.pdfPages file_obj.bytes = Except.ok pages →
        read_file_content ext file_obj = okConcat pages)) ∧
    (endswith file_obj.name ".pdf" = false →
      endswith file_obj.name ".docx" = true →
      (∀ e, ext.docxParagraphs file_obj.bytes = Except.error e →
        read_file_content ext file_obj = "") ∧
      (∀ paras, ext.docxParagraphs file_obj.bytes = Except.ok paras →
        read_file_content ext file_obj = " ".intercalate paras)) ∧
    (endswith file_obj.name ".pdf" = false →
      endswith file_obj.name ".docx" = false →
      (∀ e, ext.decodeUtf8 file_obj.bytes = Except.error e →
        read_file_content ext file_obj = "") ∧
      (∀ s, ext.decodeUtf8 file_obj.bytes = Except.ok s →
        read_file_content ext file_obj = s)) := by
  refine ⟨fun hp => ⟨fun e he => ?_, fun pages hps => ?_⟩,
          fun hp hd => ⟨fun e he => ?_, fun paras hps => ?_⟩,
          fun hp hd => ⟨fun e he => ?_, fun s hs => ?_⟩⟩ <;>
    simp [read_file_content, read_file_body, hp, *, pdfAccum_fst,
      String.empty_append]

/-- C9 witness: a PDF whose second page fails to extract still yields
the text of the first page, with no error escaping. -/
theorem C9_extraction_never_raises_witness :
    read_file_content extPdfPartial ⟨"cv.pdf", [104]⟩ = "One" := by
  have h := (C9_extraction_never_raises extPdfPartial ⟨"cv.pdf", [104]⟩).1 rfl
  exact (h.2 [Except.ok "One", Except.error PyError.typeError, Except.ok "Three"]
    rfl).trans rfl

/-- C10: a document whose analysis yields no result leaves the
processed store untouched — the batch step is a no-op for it — so a
later document with identical bytes is not seen as a duplicate. -/
theorem C10_failed_analysis_not_recorded (ext : Extern) (f : UploadedFile)
    (rest : List UploadedFile) (store : List (String × Json)) (results : List Json)
    (hdup : check_duplicate store (calculate_file_hash f.bytes) = false)
    (hfail : analyze_cv ext (read_file_content ext f) = none) :
    processBatch ext (f :: rest) store results =
      processBatch ext rest store results ∧
    (∀ g : UploadedFile, g.bytes = f.bytes →
      check_duplicate store (calculate_file_hash g.bytes) = false) := by
  constructor
  · simp only [processBatch, hdup, Bool.false_eq_true, if_false, hfail]
  · intro g hg
    rw [hg]
    exact hdup

/-- C10 witness: with an offline scoring service the first file is not
recorded, and a second file with the same bytes is not treated as a
duplicate. -/
theorem C10_failed_analysis_not_recorded_witness :
    processBatch extOffline [⟨"x.txt", [104]⟩, ⟨"y.txt", [104]⟩] [] [] =
      processBatch extOffline [⟨"y.txt", [104]⟩] [] [] ∧
    check_duplicate [] (calculate_file_hash [104]) = false := by
  have h := C10_failed_analysis_not_recorded extOffline ⟨"x.txt", [104]⟩
    [⟨"y.txt", [104]⟩] [] [] rfl rfl
  exact ⟨h.1, h.2 ⟨"y.txt", [104]⟩ rfl⟩

end CVAnalyzer
